import Mathlib

/-
Verification of the resilient synchronization core of the mf-financas
bill-tracking client.

Shallow embedding conventions:
- Calendar dates (`dataVencimento`, ISO date-only strings in the source)
  are modelled as (year, month, day) triples compared lexicographically,
  matching both ISO-string ordering and date-fns comparisons of
  date-only values.
- Timestamps (`Date.now()`, ISO datetime strings) are modelled as `Nat`
  milliseconds.
- Monetary amounts are modelled as `Int` (fixed-point currency units,
  per the data model of the system).
- Fallible async code is modelled with `Except`/`Option`; the remote
  database visible to the supabase query builder is modelled as a list
  of rows, with `.eq` filters and `.single()` semantics made explicit.
-/

namespace MFFinancas

/-- Status of an account, from `types` (`StatusConta`):
aberta (open), paga (paid), vencida (overdue). -/
inductive StatusConta
  | aberta
  | paga
  | vencida
deriving DecidableEq, Repr

/-- Category of an account, from `types` (`CategoriaConta`). -/
inductive CategoriaConta
  | fixa
  | variavel
  | cartao
  | imposto
  | outro
deriving DecidableEq, Repr

/-- A calendar date, modelling the date-only ISO strings of the source. -/
structure Data where
  ano : Int
  mes : Int
  dia : Int
deriving DecidableEq, Repr

/-- Strict ordering of calendar dates (lexicographic), modelling both
`isAfter(b, parseISO(a))` and `new Date(a) < hoje` on date-only values. -/
def Data.antes (a b : Data) : Bool :=
  a.ano < b.ano || (a.ano == b.ano && (a.mes < b.mes || (a.mes == b.mes && a.dia < b.dia)))

/-- An account in the application format, from `types` (`Conta`). -/
structure Conta where
  id : String
  nome : String
  dataVencimento : Data
  valor : Int
  status : StatusConta
  categoria : CategoriaConta
  dataPagamento : Option Nat := none
  observacoes : Option String := none
deriving DecidableEq, Repr

/-- A row of the `contas` table in the remote database, from
`Tables` in `services/supabase.ts`. -/
structure ContaRow where
  id : String
  usuario_id : String
  nome : String
  valor : Int
  data_vencimento : Data
  data_pagamento : Option Nat := none
  status : StatusConta
  categoria : CategoriaConta
  observacoes : Option String := none
deriving DecidableEq, Repr

/-- `convertFromSupabaseConta` of `services/contasService.ts`: converts a
database row into an application-format account. -/
def convertFromSupabaseConta (r : ContaRow) : Conta :=
  { id := r.id
    nome := r.nome
    dataVencimento := r.data_vencimento
    valor := r.valor
    status := r.status
    categoria := r.categoria
    dataPagamento := r.data_pagamento
    observacoes := r.observacoes }

/-- The record invariant of the specification data model: payment date is
present iff status = paga, and status = vencida implies the due date is
strictly before the current date and the payment date is absent. -/
def ContaRow.invariante (r : ContaRow) (hoje : Data) : Prop :=
  (r.data_pagamento.isSome ↔ r.status = .paga) ∧
  (r.status = .vencida → r.data_vencimento.antes hoje = true ∧ r.data_pagamento = none)

instance (r : ContaRow) (hoje : Data) : Decidable (r.invariante hoje) := by
  unfold ContaRow.invariante
  infer_instance

namespace OfflineStorage

/-- `STORAGE_PREFIX` of `utils/offlineStorage.ts`. -/
def storagePrefixo : String := "mffinancas_offline_"

/-- A cache entry (`StorageItem` of `utils/offlineStorage.ts`): value,
write timestamp, optional expiry timestamp, all in milliseconds. -/
structure StorageItem (α : Type) where
  value : α
  timestamp : Nat
  expiresAt : Option Nat
deriving DecidableEq, Repr

/-- `saveOfflineData(key, data, ttlInMinutes)` of
`utils/offlineStorage.ts:20-58`, modelling the successful `setItem` path.
The expiry is `ttlInMinutes ? now + ttlInMinutes * 60 * 1000 : undefined`:
an absent or zero ttl (zero is falsy in the source language) stores the
entry without an expiry. -/
def saveOfflineData {α : Type} (store : String → Option (StorageItem α))
    (key : String) (data : α) (now : Nat) (ttlInMinutes : Option Nat) :
    String → Option (StorageItem α) :=
  fun k =>
    if k = storagePrefixo ++ key then
      some { value := data
             timestamp := now
             expiresAt :=
               match ttlInMinutes with
               | some ttl => if ttl ≠ 0 then some (now + ttl * 60 * 1000) else none
               | none => none }
    else store k

/-- `getOfflineData(key)` of `utils/offlineStorage.ts:63-86`: returns the
stored value, except that an entry whose `expiresAt` is strictly in the
past is removed and `null` is returned. Returns the read value and the
store after the read. -/
def getOfflineData {α : Type} (store : String → Option (StorageItem α))
    (key : String) (now : Nat) : Option α × (String → Option (StorageItem α)) :=
  match store (storagePrefixo ++ key) with
  | none => (none, store)
  | some item =>
    match item.expiresAt with
    | some exp =>
      if exp < now then
        (none, fun k => if k = storagePrefixo ++ key then none else store k)
      else (some item.value, store)
    | none => (some item.value, store)

/-- `hasOfflineData(key)` of `utils/offlineStorage.ts:160-168`
(and `existemDados`, lines 278-285, identical up to the key prefix):
a bare `getItem(key) !== null` check with no expiry test and no
modification of the store. -/
def hasOfflineData {α : Type} (store : String → Option (StorageItem α))
    (key : String) : Bool :=
  (store (storagePrefixo ++ key)).isSome

end OfflineStorage

namespace FinancasContext

/-- The per-record step of `verificarContasVencidas`
(`context/FinancasContext.tsx`, the body of `contas.map`): an open account
whose due date is strictly before today becomes overdue, every other
account is returned unchanged. -/
def sweepConta (hoje : Data) (conta : Conta) : Conta :=
  if conta.status = .aberta ∧ conta.dataVencimento.antes hoje = true then
    { conta with status := .vencida }
  else conta

/-- The daily sweep `verificarContasVencidas`
(`context/FinancasContext.tsx:98-103`, same map in the provider variant):
the map over the in-memory account list producing `contasAtualizadas`.
The once-per-day guard only decides whether this map runs at all, and the
fire-and-forget remote updates do not touch the in-memory list, so the
in-memory effect of a sweep that runs is exactly this map. -/
def verificarContasVencidas (hoje : Data) (contas : List Conta) : List Conta :=
  contas.map (sweepConta hoje)

/-- The five-key category sum map of `gerarRelatorio`
(`contasPorCategoria` in `context/FinancasContext.tsx:282-288`): every
category is present, initialized at zero. -/
structure PorCategoria where
  fixa : Int := 0
  variavel : Int := 0
  cartao : Int := 0
  imposto : Int := 0
  outro : Int := 0
deriving DecidableEq, Repr

/-- One step of the `contasDoMes.forEach` accumulation
(`contasPorCategoria[conta.categoria] += conta.valor`). -/
def addCategoria (acc : PorCategoria) (c : Conta) : PorCategoria :=
  match c.categoria with
  | .fixa => { acc with fixa := acc.fixa + c.valor }
  | .variavel => { acc with variavel := acc.variavel + c.valor }
  | .cartao => { acc with cartao := acc.cartao + c.valor }
  | .imposto => { acc with imposto := acc.imposto + c.valor }
  | .outro => { acc with outro := acc.outro + c.valor }

/-- The report structure, from `types` (`Relatorio`). -/
structure Relatorio where
  totalPago : Int
  totalEmAberto : Int
  totalVencido : Int
  contasPorCategoria : PorCategoria
  mes : Int
  ano : Int
deriving DecidableEq, Repr

/-- The month/year restriction of `gerarRelatorio` (`contasDoMes`): keeps
the accounts whose due date falls in the given month and year. -/
def contasDoMes (contas : List Conta) (mes ano : Int) : List Conta :=
  contas.filter fun c => c.dataVencimento.mes = mes ∧ c.dataVencimento.ano = ano

/-- The `reduce((total, conta) => total + conta.valor, 0)` fold used for
each status bucket of `gerarRelatorio`. -/
def somaValores (contas : List Conta) : Int :=
  contas.foldl (fun total conta => total + conta.valor) 0

/-- `gerarRelatorio(mes, ano)` of `context/FinancasContext.tsx:260-304`:
restricts to the month, folds the three status buckets and the per-category
sums (all five categories initialized at zero). -/
def gerarRelatorio (contas : List Conta) (mes ano : Int) : Relatorio :=
  let cs := contasDoMes contas mes ano
  { totalPago := somaValores (cs.filter fun c => c.status = .paga)
    totalEmAberto := somaValores (cs.filter fun c => c.status = .aberta)
    totalVencido := somaValores (cs.filter fun c => c.status = .vencida)
    contasPorCategoria := cs.foldl addCategoria {}
    mes := mes
    ano := ano }

end FinancasContext

/-- The grand total of the five category buckets of a report. -/
def FinancasContext.PorCategoria.total (p : FinancasContext.PorCategoria) : Int :=
  p.fixa + p.variavel + p.cartao + p.imposto + p.outro

/-- A partial account update in the application format
(`Partial<Conta>` as used by `atualizarConta`): `none` means the field is
absent from the payload. -/
structure PartialConta where
  nome : Option String := none
  valor : Option Int := none
  dataVencimento : Option Data := none
  dataPagamento : Option Nat := none
  status : Option StatusConta := none
  categoria : Option CategoriaConta := none
  observacoes : Option String := none
deriving DecidableEq, Repr

namespace ContasService

/-- `buscarContas(userId)` of `services/contasService.ts:527-548`, as it
behaves for the already-owner-filtered row set. While offline,
`fetchWithRetry` throws before any request is made, the supabase call
fails, and the `catch`/error branch swallows the error and returns the
empty list; the cache is never consulted on this path. Online, the rows
returned by the remote are converted to the application format; a remote
error is likewise swallowed into the empty list. -/
def buscarContas (offline : Bool) (remoto : Except Unit (List ContaRow)) : List Conta :=
  if offline then []
  else
    match remoto with
    | .ok rows => rows.map convertFromSupabaseConta
    | .error _ => []

/-- The row update performed by `atualizarConta` of
`services/contasService.ts:618-705` on a matched row: the
`dadosParaAtualizar` object (defined payload fields copied over), with the
status recomputed from the new due date whenever the payload contains a
due date and the payload status — not the stored status — differs from
paga (the code comment says the status of an already paid account must not
be changed, but the check reads `dadosAtualizados.status`, the payload). -/
def aplicarAtualizacao (r : ContaRow) (d : PartialConta) (hoje : Data) : ContaRow :=
  { id := r.id
    usuario_id := r.usuario_id
    nome := d.nome.getD r.nome
    valor := d.valor.getD r.valor
    data_vencimento := d.dataVencimento.getD r.data_vencimento
    data_pagamento :=
      match d.dataPagamento with
      | some t => some t
      | none => r.data_pagamento
    status :=
      match d.dataVencimento with
      | some dv =>
        if d.status ≠ some .paga then (if dv.antes hoje then .vencida else .aberta)
        else d.status.getD r.status
      | none => d.status.getD r.status
    categoria := d.categoria.getD r.categoria
    observacoes :=
      match d.observacoes with
      | some o => some o
      | none => r.observacoes }

/-- `atualizarConta(id, userId, dadosAtualizados)` of
`services/contasService.ts:618-705`. `dadosValidos` is the verdict of the
external zod validation (`atualizacaoContaSchema.safeParse`); a failed
validation throws. The ownership probe `.single()` throws unless exactly
one row carries the id; a non-owner throws. The update then rewrites every
row matching both the id and the owner and the function resolves to
`true`, here returning the updated row set. -/
def atualizarConta (id userId : String) (dados : PartialConta) (dadosValidos : Bool)
    (db : List ContaRow) (hoje : Data) : Except Unit (List ContaRow) :=
  if ¬ dadosValidos then .error ()
  else
    match db.filter fun r => r.id = id with
    | [row] =>
      if row.usuario_id ≠ userId then .error ()
      else .ok (db.map fun r =>
        if r.id = id ∧ r.usuario_id = userId then aplicarAtualizacao r dados hoje else r)
    | _ => .error ()

/-- `marcarComoPaga(id, userId)` of `services/contasService.ts:762-819`,
on a reachable remote. `idValido` is the verdict of the external zod
validation (`validar(contaPagaSchema, { id })`); a failed validation
returns false. The audit fetch (`.single()`) error for a missing or
unowned id is only logged by `handleError` and execution continues; the
update filtered by id and owner matches zero or more rows, which the
remote does not report as an error, and the function returns `true`. -/
def marcarComoPaga (id userId : String) (idValido : Bool) (db : List ContaRow)
    (agora : Nat) : Bool × List ContaRow :=
  if ¬ idValido then (false, db)
  else
    (true, db.map fun r =>
      if r.id = id ∧ r.usuario_id = userId then
        { r with status := .paga, data_pagamento := some agora }
      else r)

end ContasService

namespace FinancasContext

/-- `carregarContas` of `context/FinancasContext.tsx:62-79`: on a
successful fetch, `setContas(contasCarregadas)` replaces the in-memory
set wholesale with the fetched one. -/
def carregarContas (_contasAtuais contasCarregadas : List Conta) : List Conta :=
  contasCarregadas

/-- The spread merge `{ ...c, ...conta }` applied by the context-level
`atualizarConta` to the matched in-memory account. -/
def mergeConta (c : Conta) (d : PartialConta) : Conta :=
  { id := c.id
    nome := d.nome.getD c.nome
    valor := d.valor.getD c.valor
    dataVencimento := d.dataVencimento.getD c.dataVencimento
    dataPagamento :=
      match d.dataPagamento with
      | some t => some t
      | none => c.dataPagamento
    status := d.status.getD c.status
    categoria := d.categoria.getD c.categoria
    observacoes :=
      match d.observacoes with
      | some o => some o
      | none => c.observacoes }

/-- The add command (`adicionarConta` of `context/FinancasContext.tsx:159-179`
around the service of `contasService.ts`): on success the new account is
appended to the in-memory set; a gateway failure propagates as a thrown
error which the context `catch` reports to the user (second component)
without touching the set. -/
def adicionarContaComando (contas : List Conta) (resultado : Except Unit Conta) :
    List Conta × Bool :=
  match resultado with
  | .ok novaConta => (contas ++ [novaConta], false)
  | .error _ => (contas, true)

/-- The update command (`atualizarConta` of
`context/FinancasContext.tsx:182-204`): on service success the matched
in-memory account gets the payload spread-merged over it; a gateway
failure is rethrown by the service and reported by the context `catch`
with the set untouched. -/
def atualizarContaComando (contas : List Conta) (id : String) (dados : PartialConta)
    (resultado : Except Unit Unit) : List Conta × Bool :=
  match resultado with
  | .ok _ => (contas.map fun c => if c.id = id then mergeConta c dados else c, false)
  | .error _ => (contas, true)

/-- The delete command (`removerConta` of
`context/FinancasContext.tsx:207-227`): on service success the account is
filtered out of the in-memory set; on a gateway failure the service
surfaces the error (`handleError`) and reports false, and the set is left
untouched. -/
def removerContaComando (contas : List Conta) (id : String)
    (gateway : Except Unit Unit) : List Conta × Bool :=
  match gateway with
  | .ok _ => (contas.filter fun c => c.id ≠ id, false)
  | .error _ => (contas, true)

/-- The mark-paid command (`marcarComoPaga` of
`context/FinancasContext.tsx:230-257`): when the service reports success
the matched in-memory account is set to paga with the payment timestamp;
on a gateway failure the service surfaces the error (`handleError`) and
reports false, and the set is left untouched. -/
def marcarComoPagaComando (contas : List Conta) (id : String) (agora : Nat)
    (gateway : Except Unit Unit) : List Conta × Bool :=
  match gateway with
  | .ok _ => (contas.map fun c =>
      if c.id = id then { c with status := .paga, dataPagamento := some agora } else c,
      false)
  | .error _ => (contas, true)

end FinancasContext

namespace FinancasProvider

/-- The `useState` initializer of the provider variant
(`src/unnamed/part_004:33-43`): the in-memory account set starts from the
cached record set when one is present, otherwise empty. -/
def contasIniciais (cache : Option (List Conta)) : List Conta :=
  cache.getD []

/-- The persistence effect of the provider variant
(`src/unnamed/part_004:86-92`): whenever the in-memory set changes it is
written back to the cache in full. -/
def persistirContas (contas : List Conta) : Option (List Conta) :=
  some contas

end FinancasProvider

namespace Supabase

/-- The outcome the environment produces for one fetch attempt: a resolved
response with an HTTP status, an abort from the 60s timeout, a
network-class `TypeError`, or any other thrown error. -/
inductive FetchOutcome
  | resposta (status : Nat)
  | timeoutAbort
  | erroRede
  | erroOutro
deriving DecidableEq, Repr

/-- The errors `fetchWithRetry` can throw: the offline-mode short-circuit,
timeout exhaustion, network-failure exhaustion, and a rethrown foreign
error. -/
inductive FetchErro
  | modoOffline
  | timeoutEsgotado
  | falhaConexao
  | outro
deriving DecidableEq, Repr

/-- The module-level connection flags of `services/supabase.ts`:
`isOfflineMode`, and whether `scheduleReconnect` has been invoked. -/
structure EstadoConexao where
  isOfflineMode : Bool
  reconexaoAgendada : Bool
deriving DecidableEq, Repr

/-- The observable result of a `fetchWithRetry` call: the returned
response status or thrown error, the number of fetch attempts performed,
and the connection flags afterwards. -/
structure ResultadoFetch where
  resultado : Except FetchErro Nat
  tentativas : Nat
  estado : EstadoConexao
deriving Repr

/-- `MAX_RETRIES` of `services/supabase.ts`. -/
def MAX_RETRIES : Nat := 3

/-- Classifies an attempt outcome as transient in the sense of the retry
policy: a 5xx or 429 response, a timeout, or a network error. -/
def transiente : FetchOutcome → Bool
  | .resposta status => decide (500 ≤ status) || decide (status = 429)
  | .timeoutAbort => true
  | .erroRede => true
  | .erroOutro => false

/-- `fetchWithRetry` of `services/supabase.ts:83-203` for a non-dev-server
URL. `tentativa i` is the outcome of the attempt made with `retryCount = i`.
A 5xx/429 response, a timeout, or a network error is retried while
`retryCount < MAX_RETRIES`; any other response (success or non-transient
failure alike) is returned as-is after a single attempt; a foreign error
is rethrown. Exhausting retries returns the failing response in the
5xx/429 case, and in the timeout and network cases throws after setting
`isOfflineMode` (the network case also calling `scheduleReconnect`). The
backoff sleeps do not affect the result and are not modelled. -/
def fetchWithRetry (tentativa : Nat → FetchOutcome) (retryCount : Nat)
    (estado : EstadoConexao) : ResultadoFetch :=
  if estado.isOfflineMode then
    { resultado := .error .modoOffline, tentativas := 0, estado := estado }
  else
    match tentativa retryCount with
    | .resposta status =>
      if h : (500 ≤ status ∨ status = 429) ∧ retryCount < MAX_RETRIES then
        let r := fetchWithRetry tentativa (retryCount + 1) estado
        { r with tentativas := r.tentativas + 1 }
      else
        { resultado := .ok status, tentativas := 1, estado := estado }
    | .timeoutAbort =>
      if h : retryCount < MAX_RETRIES then
        let r := fetchWithRetry tentativa (retryCount + 1) estado
        { r with tentativas := r.tentativas + 1 }
      else
        { resultado := .error .timeoutEsgotado, tentativas := 1,
          estado := { estado with isOfflineMode := true } }
    | .erroRede =>
      if h : retryCount < MAX_RETRIES then
        let r := fetchWithRetry tentativa (retryCount + 1) estado
        { r with tentativas := r.tentativas + 1 }
      else
        { resultado := .error .falhaConexao, tentativas := 1,
          estado := { isOfflineMode := true, reconexaoAgendada := true } }
    | .erroOutro =>
      { resultado := .error .outro, tentativas := 1, estado := estado }
termination_by MAX_RETRIES - retryCount
decreasing_by
  · omega
  · omega
  · omega

/-- Attempt scenario: two transient timeouts, then a 200. -/
def cenarioDoisTimeouts : Nat → FetchOutcome :=
  fun i => if i < 2 then .timeoutAbort else .resposta 200

/-- Attempt scenario: the remote answers 503 on every attempt. -/
def cenario5xx : Nat → FetchOutcome :=
  fun _ => .resposta 503

/-- Attempt scenario: every attempt times out. -/
def cenarioTimeout : Nat → FetchOutcome :=
  fun _ => .timeoutAbort

/-- Attempt scenario: every attempt fails with a network error. -/
def cenarioRede : Nat → FetchOutcome :=
  fun _ => .erroRede

/-- Attempt scenario: the remote answers 404 immediately. -/
def cenario404 : Nat → FetchOutcome :=
  fun _ => .resposta 404

end Supabase

/-- Three concrete cached accounts, for the offline read scenario. -/
def contasExemplo : List Conta :=
  [ { id := "c1", nome := "agua", dataVencimento := ⟨2025, 1, 5⟩, valor := 80,
      status := .aberta, categoria := .fixa },
    { id := "c2", nome := "luz", dataVencimento := ⟨2025, 1, 8⟩, valor := 120,
      status := .paga, categoria := .fixa, dataPagamento := some 1000 },
    { id := "c3", nome := "mercado", dataVencimento := ⟨2025, 1, 20⟩, valor := 300,
      status := .aberta, categoria := .variavel } ]

/-- A concrete paid database row, for the due-date edit scenario. -/
def linhaPagaExemplo : ContaRow :=
  { id := "a1", usuario_id := "u1", nome := "internet", valor := 100,
    data_vencimento := ⟨2025, 1, 10⟩, data_pagamento := some 1700000,
    status := .paga, categoria := .fixa }

/-- A concrete open database row owned by `u1`. -/
def linhaAbertaExemplo : ContaRow :=
  { id := "c3", usuario_id := "u1", nome := "mercado", valor := 300,
    data_vencimento := ⟨2025, 1, 20⟩, status := .aberta, categoria := .variavel }

/-- A payload that edits only the due date, as submitted by the edit form
(which never includes a status field). -/
def edicaoVencimento : PartialConta :=
  { dataVencimento := some ⟨2025, 2, 5⟩ }

/-- What `atualizarConta` makes of `linhaPagaExemplo` under
`edicaoVencimento`: the due date moved, the status recomputed to vencida,
the payment date left in place. -/
def linhaPagaAtualizada : ContaRow :=
  { linhaPagaExemplo with data_vencimento := ⟨2025, 2, 5⟩, status := .vencida }

end MFFinancas

namespace MFFinancas

/-- C6: when the daily sweep runs on (records, today), every open record
whose due date is strictly before today gets status overdue, every paid
record is left untouched, and every other record is unchanged; the sweep
is exactly the element-wise map of this per-record step. -/
theorem verificarContasVencidas_spec (hoje : Data) (c : Conta) :
    (c.status = .aberta → c.dataVencimento.antes hoje = true →
      FinancasContext.sweepConta hoje c = { c with status := .vencida }) ∧
    (c.status = .paga → FinancasContext.sweepConta hoje c = c) ∧
    (¬ (c.status = .aberta ∧ c.dataVencimento.antes hoje = true) →
      FinancasContext.sweepConta hoje c = c) ∧
    (∀ contas : List Conta,
      FinancasContext.verificarContasVencidas hoje contas
        = contas.map (FinancasContext.sweepConta hoje)) := by
  refine ⟨?_, ?_, ?_, fun _ => rfl⟩
  · intro h1 h2
    simp [FinancasContext.sweepConta, h1, h2]
  · intro h1
    simp [FinancasContext.sweepConta, h1]
  · intro h
    simp only [FinancasContext.sweepConta, if_neg h]

/-- Witness for C6 at concrete inputs: an open account due 2025-01-10 is
marked overdue by a sweep on 2025-02-01. -/
theorem verificarContasVencidas_spec_witness :
    FinancasContext.sweepConta ⟨2025, 2, 1⟩
      { id := "a", nome := "luz", dataVencimento := ⟨2025, 1, 10⟩, valor := 100,
        status := .aberta, categoria := .fixa }
      = { id := "a", nome := "luz", dataVencimento := ⟨2025, 1, 10⟩, valor := 100,
          status := .vencida, categoria := .fixa } :=
  (verificarContasVencidas_spec ⟨2025, 2, 1⟩
    { id := "a", nome := "luz", dataVencimento := ⟨2025, 1, 10⟩, valor := 100,
      status := .aberta, categoria := .fixa }).1 rfl (by decide)

/-- The per-record sweep step is idempotent. -/
theorem sweepConta_idem (hoje : Data) (c : Conta) :
    FinancasContext.sweepConta hoje (FinancasContext.sweepConta hoje c)
      = FinancasContext.sweepConta hoje c := by
  unfold FinancasContext.sweepConta
  by_cases h : c.status = .aberta ∧ c.dataVencimento.antes hoje = true
  · simp [h]
  · simp [h]

/-- C7: the due-date sweep is idempotent: for every record set and every
fixed value of today, applying the sweep twice yields the same set as
applying it once. -/
theorem verificarContasVencidas_idem (hoje : Data) (contas : List Conta) :
    FinancasContext.verificarContasVencidas hoje
        (FinancasContext.verificarContasVencidas hoje contas)
      = FinancasContext.verificarContasVencidas hoje contas := by
  unfold FinancasContext.verificarContasVencidas
  rw [List.map_map]
  exact List.map_congr_left fun c _ => sweepConta_idem hoje c

theorem foldl_valor_eq (l : List Conta) (a : Int) :
    l.foldl (fun total conta => total + conta.valor) a = a + FinancasContext.somaValores l := by
  induction l generalizing a with
  | nil => simp [FinancasContext.somaValores]
  | cons c cs ih =>
    simp only [List.foldl_cons, FinancasContext.somaValores] at *
    rw [ih, ih (0 + c.valor)]
    ring

theorem somaValores_cons (c : Conta) (l : List Conta) :
    FinancasContext.somaValores (c :: l) = c.valor + FinancasContext.somaValores l := by
  have h := foldl_valor_eq l (0 + c.valor)
  simpa [FinancasContext.somaValores, List.foldl_cons] using h

theorem somaValores_particao (l : List Conta) :
    FinancasContext.somaValores (l.filter fun c => c.status = .paga)
      + FinancasContext.somaValores (l.filter fun c => c.status = .aberta)
      + FinancasContext.somaValores (l.filter fun c => c.status = .vencida)
      = FinancasContext.somaValores l := by
  induction l with
  | nil => rfl
  | cons c cs ih =>
    cases hc : c.status <;>
      simp [List.filter_cons, hc, somaValores_cons] <;> omega

theorem addCategoria_total (acc : FinancasContext.PorCategoria) (c : Conta) :
    (FinancasContext.addCategoria acc c).total = acc.total + c.valor := by
  cases hc : c.categoria <;>
    simp [FinancasContext.addCategoria, hc, FinancasContext.PorCategoria.total] <;> ring

theorem foldl_addCategoria_total (l : List Conta) (acc : FinancasContext.PorCategoria) :
    (l.foldl FinancasContext.addCategoria acc).total
      = acc.total + FinancasContext.somaValores l := by
  induction l generalizing acc with
  | nil => simp [FinancasContext.somaValores]
  | cons c cs ih =>
    rw [List.foldl_cons, ih, addCategoria_total, somaValores_cons]
    ring

/-- C8: for every record set and every (month, year), the sum of the three
status buckets of `gerarRelatorio` and the grand total of its five category
buckets both equal the sum of `valor` over the records whose due date falls
in that month — the two foldings of the same total agree. -/
theorem gerarRelatorio_totais_coincidem (contas : List Conta) (mes ano : Int) :
    (FinancasContext.gerarRelatorio contas mes ano).totalPago
        + (FinancasContext.gerarRelatorio contas mes ano).totalEmAberto
        + (FinancasContext.gerarRelatorio contas mes ano).totalVencido
      = FinancasContext.somaValores (FinancasContext.contasDoMes contas mes ano) ∧
    (FinancasContext.gerarRelatorio contas mes ano).contasPorCategoria.total
      = FinancasContext.somaValores (FinancasContext.contasDoMes contas mes ano) := by
  constructor
  · exact somaValores_particao (FinancasContext.contasDoMes contas mes ano)
  · have h := foldl_addCategoria_total (FinancasContext.contasDoMes contas mes ano) {}
    simpa [FinancasContext.gerarRelatorio, FinancasContext.PorCategoria.total] using h

/-- C9 counterexample: with a zero ttl, the cache stores the entry with
no expiry (zero is falsy in `ttlInMinutes ? ... : undefined`), so a read
one minute later — after the zero-minute ttl has elapsed — still returns
the value instead of the null the claim requires. -/
theorem getOfflineData_ttlZero_contraexemplo :
    (OfflineStorage.getOfflineData
        (OfflineStorage.saveOfflineData
          (fun _ => (none : Option (OfflineStorage.StorageItem Nat))) "contas" 42 0 (some 0))
        "contas" 60000).1 = some 42 := by
  decide

/-- C9 amended: for every positive ttl, `save(k, v, ttl)` followed by
`read(k)` returns `v` as long as the ttl has not elapsed; once the ttl has
elapsed, `read(k)` returns null and a subsequent `exists(k)` returns false
(the expired entry is evicted by the read). A zero ttl stores the entry
without expiry. -/
theorem saveOfflineData_roundTrip {α : Type}
    (store : String → Option (OfflineStorage.StorageItem α)) (key : String)
    (v : α) (now ttl t : Nat) (httl : ttl ≠ 0) :
    (t ≤ now + ttl * 60 * 1000 →
      (OfflineStorage.getOfflineData
        (OfflineStorage.saveOfflineData store key v now (some ttl)) key t).1 = some v) ∧
    (now + ttl * 60 * 1000 < t →
      (OfflineStorage.getOfflineData
        (OfflineStorage.saveOfflineData store key v now (some ttl)) key t).1 = none ∧
      OfflineStorage.hasOfflineData
        (OfflineStorage.getOfflineData
          (OfflineStorage.saveOfflineData store key v now (some ttl)) key t).2 key = false) := by
  have hsave : OfflineStorage.saveOfflineData store key v now (some ttl)
      (OfflineStorage.storagePrefixo ++ key)
      = some ⟨v, now, some (now + ttl * 60 * 1000)⟩ := by
    simp [OfflineStorage.saveOfflineData, httl]
  constructor
  · intro ht
    have hlt : ¬ (now + ttl * 60 * 1000 < t) := by omega
    unfold OfflineStorage.getOfflineData
    rw [hsave]
    simp [hlt]
  · intro ht
    unfold OfflineStorage.getOfflineData
    rw [hsave]
    simp [ht, OfflineStorage.hasOfflineData]

/-- Witness for C9 amended at ttl = 1 minute: the value survives a read at
the expiry instant and is gone, with `exists` false, one millisecond
later. -/
theorem saveOfflineData_roundTrip_witness :
    (OfflineStorage.getOfflineData
        (OfflineStorage.saveOfflineData
          (fun _ => (none : Option (OfflineStorage.StorageItem Nat))) "contas" 7 0 (some 1))
        "contas" 60000).1 = some 7 ∧
    (OfflineStorage.getOfflineData
        (OfflineStorage.saveOfflineData
          (fun _ => (none : Option (OfflineStorage.StorageItem Nat))) "contas" 7 0 (some 1))
        "contas" 60001).1 = none ∧
    OfflineStorage.hasOfflineData
      (OfflineStorage.getOfflineData
        (OfflineStorage.saveOfflineData
          (fun _ => (none : Option (OfflineStorage.StorageItem Nat))) "contas" 7 0 (some 1))
        "contas" 60001).2 "contas" = false := by
  refine ⟨(saveOfflineData_roundTrip _ "contas" 7 0 1 60000 (by decide)).1 (by decide),
    ((saveOfflineData_roundTrip _ "contas" 7 0 1 60001 (by decide)).2 (by decide)).1,
    ((saveOfflineData_roundTrip _ "contas" 7 0 1 60001 (by decide)).2 (by decide)).2⟩

/-- C10: `exists` does not enforce the ttl — an entry whose expiry is
already past, and which has not been read since, still answers true to
`hasOfflineData` (which never modifies the store); the expiry is detected,
and the entry evicted, by `getOfflineData`, after which `exists` answers
false. -/
theorem hasOfflineData_ignora_ttl {α : Type}
    (store : String → Option (OfflineStorage.StorageItem α)) (key : String)
    (item : OfflineStorage.StorageItem α) (exp now : Nat)
    (hstore : store (OfflineStorage.storagePrefixo ++ key) = some item)
    (hexp : item.expiresAt = some exp) (hlt : exp < now) :
    OfflineStorage.hasOfflineData store key = true ∧
    (OfflineStorage.getOfflineData store key now).1 = none ∧
    OfflineStorage.hasOfflineData (OfflineStorage.getOfflineData store key now).2 key = false := by
  obtain ⟨val, ts, expAt⟩ := item
  simp only at hexp
  subst hexp
  refine ⟨?_, ?_, ?_⟩
  · simp [OfflineStorage.hasOfflineData, hstore]
  · unfold OfflineStorage.getOfflineData
    rw [hstore]
    simp [hlt]
  · unfold OfflineStorage.getOfflineData
    rw [hstore]
    simp [hlt, OfflineStorage.hasOfflineData]

/-- Witness for C10: an entry that expired at 10ms, inspected at 11ms,
still exists until it is read. -/
theorem hasOfflineData_ignora_ttl_witness :
    OfflineStorage.hasOfflineData
      (fun k => if k = "mffinancas_offline_x"
        then some (⟨5, 0, some 10⟩ : OfflineStorage.StorageItem Nat) else none) "x" = true ∧
    (OfflineStorage.getOfflineData
      (fun k => if k = "mffinancas_offline_x"
        then some (⟨5, 0, some 10⟩ : OfflineStorage.StorageItem Nat) else none) "x" 11).1 = none ∧
    OfflineStorage.hasOfflineData
      (OfflineStorage.getOfflineData
        (fun k => if k = "mffinancas_offline_x"
          then some (⟨5, 0, some 10⟩ : OfflineStorage.StorageItem Nat) else none) "x" 11).2
      "x" = false :=
  hasOfflineData_ignora_ttl
    (fun k => if k = "mffinancas_offline_x"
      then some (⟨5, 0, some 10⟩ : OfflineStorage.StorageItem Nat) else none)
    "x" ⟨5, 0, some 10⟩ 10 11 (by decide) rfl (by decide)

/-- C5: for every mutating command (add, update, delete, mark-paid), if
the gateway call fails, the in-memory record set is left exactly as it was
before the command and the error is surfaced to the caller — no command
leaves a partial mutation silently. -/
theorem comandos_falha_sem_mutacao (contas : List Conta) (id : String)
    (dados : PartialConta) (agora : Nat) :
    FinancasContext.adicionarContaComando contas (.error ()) = (contas, true) ∧
    FinancasContext.atualizarContaComando contas id dados (.error ()) = (contas, true) ∧
    FinancasContext.removerContaComando contas id (.error ()) = (contas, true) ∧
    FinancasContext.marcarComoPagaComando contas id agora (.error ()) = (contas, true) :=
  ⟨rfl, rfl, rfl, rfl⟩

/-- C4 counterexample: while offline with a cached set of three records,
the read-records path returns the empty list — not the cached records the
claim requires. The gateway error is swallowed by the `catch` branch of
`buscarContas` and the cache is not consulted. -/
theorem buscarContas_offline_contraexemplo :
    ContasService.buscarContas true (.error ()) = ([] : List Conta) ∧
    FinancasProvider.contasIniciais (some contasExemplo) = contasExemplo ∧
    ContasService.buscarContas true (.error ()) ≠ contasExemplo := by
  refine ⟨rfl, rfl, ?_⟩
  decide

/-- C4 amended: while offline, the read-records command returns the empty
list (the gateway failure is swallowed; the cache is not consulted on this
path); cached records enter the in-memory set only at provider
initialization, which starts from the cached set; once online, the sync
fetch replaces the in-memory set with the converted remote set, and the
provider variant writes every in-memory set back to the cache. -/
theorem buscarContas_sincronizacao (remoto : Except Unit (List ContaRow))
    (rows : List ContaRow) (cache contas : List Conta) :
    ContasService.buscarContas true remoto = [] ∧
    FinancasProvider.contasIniciais (some cache) = cache ∧
    ContasService.buscarContas false (.ok rows) = rows.map convertFromSupabaseConta ∧
    FinancasContext.carregarContas contas (ContasService.buscarContas false (.ok rows))
      = rows.map convertFromSupabaseConta ∧
    FinancasProvider.persistirContas
        (FinancasContext.carregarContas contas (ContasService.buscarContas false (.ok rows)))
      = some (rows.map convertFromSupabaseConta) :=
  ⟨rfl, rfl, rfl, rfl, rfl⟩

/-- C1 (code bug): evaluating `atualizarConta` at a paid row and a payload
that edits only the due date (exactly what the edit form submits): the
guard reads the payload status instead of the stored status, so the stored
paid row is rewritten to vencida while keeping its payment date — the
resulting record is simultaneously flagged overdue and carries a payment
date, violating the invariant, and contradicting the code's own comment
that the status of an already paid account must not be altered. -/
theorem atualizarConta_quebra_invariante :
    ContasService.atualizarConta "a1" "u1" edicaoVencimento true [linhaPagaExemplo]
        ⟨2025, 3, 1⟩
      = .ok [linhaPagaAtualizada] ∧
    linhaPagaAtualizada.status = .vencida ∧
    linhaPagaAtualizada.data_pagamento = some 1700000 ∧
    ¬ linhaPagaAtualizada.invariante ⟨2025, 3, 1⟩ := by
  refine ⟨rfl, rfl, rfl, ?_⟩
  decide

/-- C2 counterexample: `marcarComoPaga` on a well-formed id that is absent
from the owner's (empty) row set reports success — it returns `true`, not
the not-found failure the claim requires — and leaves the row set as it
was. -/
theorem marcarComoPaga_inexistente_contraexemplo :
    ContasService.marcarComoPaga "b2" "u1" true [] 5 = (true, []) := by
  decide

/-- C2 amended: `markPaid` never reports not-found: with a valid id it
always reports success, whether or not the id matches an owned row. On a
missing or unowned id the row set is unchanged (a no-op, but reported as
success), and the in-memory set keeps its size — and its content — when no
in-memory account carries the id; on an existing owned row it sets
status = paga and payment date = now. -/
theorem marcarComoPaga_semRejeicao (id userId : String) (db : List ContaRow)
    (agora : Nat) (contas : List Conta) :
    (ContasService.marcarComoPaga id userId true db agora).1 = true ∧
    ((∀ r ∈ db, ¬ (r.id = id ∧ r.usuario_id = userId)) →
      (ContasService.marcarComoPaga id userId true db agora).2 = db) ∧
    (∀ r ∈ db, r.id = id → r.usuario_id = userId →
      ({ r with status := .paga, data_pagamento := some agora } : ContaRow)
        ∈ (ContasService.marcarComoPaga id userId true db agora).2) ∧
    (FinancasContext.marcarComoPagaComando contas id agora (.ok ())).1.length
      = contas.length ∧
    ((∀ c ∈ contas, c.id ≠ id) →
      (FinancasContext.marcarComoPagaComando contas id agora (.ok ())).1 = contas) := by
  have hdb : (ContasService.marcarComoPaga id userId true db agora).2
      = db.map fun r =>
          if r.id = id ∧ r.usuario_id = userId then
            { r with status := .paga, data_pagamento := some agora }
          else r := rfl
  have hmem : (FinancasContext.marcarComoPagaComando contas id agora (.ok ())).1
      = contas.map fun c =>
          if c.id = id then { c with status := .paga, dataPagamento := some agora }
          else c := rfl
  refine ⟨rfl, ?_, ?_, ?_, ?_⟩
  · intro h
    rw [hdb]
    have h2 : ∀ r ∈ db,
        (if r.id = id ∧ r.usuario_id = userId then
          ({ r with status := .paga, data_pagamento := some agora } : ContaRow)
        else r) = r := fun r hr => if_neg (h r hr)
    simpa using List.map_congr_left h2
  · intro r hr hid huser
    rw [hdb]
    exact List.mem_map.mpr ⟨r, hr, if_pos ⟨hid, huser⟩⟩
  · rw [hmem]
    exact List.length_map contas _
  · intro h
    rw [hmem]
    have h2 : ∀ c ∈ contas,
        (if c.id = id then ({ c with status := .paga, dataPagamento := some agora } : Conta)
        else c) = c := fun c hc => if_neg (h c hc)
    simpa using List.map_congr_left h2

/-- Witness for C2 amended: a missing id reports success and changes
nothing; the owned row `c3` is marked paid; an id absent from the
in-memory set leaves it untouched. -/
theorem marcarComoPaga_semRejeicao_witness :
    (ContasService.marcarComoPaga "b2" "u1" true [linhaAbertaExemplo] 5).1 = true ∧
    (ContasService.marcarComoPaga "b2" "u1" true [linhaAbertaExemplo] 5).2
      = [linhaAbertaExemplo] ∧
    ({ linhaAbertaExemplo with status := .paga, data_pagamento := some 5 } : ContaRow)
      ∈ (ContasService.marcarComoPaga "c3" "u1" true [linhaAbertaExemplo] 5).2 ∧
    (FinancasContext.marcarComoPagaComando contasExemplo "zz" 5 (.ok ())).1
      = contasExemplo := by
  refine ⟨(marcarComoPaga_semRejeicao "b2" "u1" [linhaAbertaExemplo] 5 contasExemplo).1,
    (marcarComoPaga_semRejeicao "b2" "u1" [linhaAbertaExemplo] 5 contasExemplo).2.1
      (by decide),
    (marcarComoPaga_semRejeicao "c3" "u1" [linhaAbertaExemplo] 5 contasExemplo).2.2.1
      linhaAbertaExemplo (by decide) rfl rfl,
    (marcarComoPaga_semRejeicao "zz" "u1" [linhaAbertaExemplo] 5 contasExemplo).2.2.2.2
      (by decide)⟩

theorem fetch_passo_transiente (tentativa : Nat → Supabase.FetchOutcome) (k : Nat)
    (hk : k < Supabase.MAX_RETRIES) (ht : Supabase.transiente (tentativa k) = true) :
    Supabase.fetchWithRetry tentativa k ⟨false, false⟩
      = { Supabase.fetchWithRetry tentativa (k + 1) ⟨false, false⟩ with tentativas := (Supabase.fetchWithRetry tentativa (k + 1) ⟨false, false⟩).tentativas + 1 } := by
  conv_lhs => rw [Supabase.fetchWithRetry]
  cases hout : tentativa k with
  | resposta s =>
    have hcond : (500 ≤ s ∨ s = 429) ∧ k < Supabase.MAX_RETRIES := by
      refine ⟨?_, hk⟩
      rw [hout] at ht
      simpa [Supabase.transiente] using ht
    simp only [hout]
    rw [dif_pos hcond]
    rfl
  | timeoutAbort =>
    simp only [hout]
    rw [dif_pos hk]
    rfl
  | erroRede =>
    simp only [hout]
    rw [dif_pos hk]
    rfl
  | erroOutro =>
    rw [hout] at ht
    simp [Supabase.transiente] at ht

theorem fetch_resposta_final (tentativa : Nat → Supabase.FetchOutcome) (k s : Nat)
    (hout : tentativa k = .resposta s)
    (h : ¬ ((500 ≤ s ∨ s = 429) ∧ k < Supabase.MAX_RETRIES)) :
    Supabase.fetchWithRetry tentativa k ⟨false, false⟩ = ⟨.ok s, 1, ⟨false, false⟩⟩ := by
  conv_lhs => rw [Supabase.fetchWithRetry]
  simp only [hout]
  rw [dif_neg h]
  rfl

theorem fetch_timeout_final (tentativa : Nat → Supabase.FetchOutcome) (k : Nat)
    (hout : tentativa k = .timeoutAbort) (hk : ¬ k < Supabase.MAX_RETRIES) :
    Supabase.fetchWithRetry tentativa k ⟨false, false⟩
      = ⟨.error .timeoutEsgotado, 1, ⟨true, false⟩⟩ := by
  conv_lhs => rw [Supabase.fetchWithRetry]
  simp only [hout]
  rw [dif_neg hk]
  rfl

theorem fetch_rede_final (tentativa : Nat → Supabase.FetchOutcome) (k : Nat)
    (hout : tentativa k = .erroRede) (hk : ¬ k < Supabase.MAX_RETRIES) :
    Supabase.fetchWithRetry tentativa k ⟨false, false⟩
      = ⟨.error .falhaConexao, 1, ⟨true, true⟩⟩ := by
  conv_lhs => rw [Supabase.fetchWithRetry]
  simp only [hout]
  rw [dif_neg hk]
  rfl

/-- C3 amended: K transient failures (5xx/429, timeout or network) followed
by a non-transient response, with K below `MAX_RETRIES`, make `execute`
return that response after exactly K+1 attempts with the connection flags
untouched; a non-transient response is returned after a single attempt with
no retry. When every attempt fails transiently, the behavior depends on the
failure class: exhausted timeouts throw and set offline mode, exhausted
network errors throw, set offline mode and schedule reconnection, but an
exhausted run of 5xx/429 responses returns the failing response to the
caller after `MAX_RETRIES`+1 attempts with no offline transition. -/
theorem fetchWithRetry_politica (tentativa : Nat → Supabase.FetchOutcome) (K s : Nat) :
    (K < Supabase.MAX_RETRIES →
      (∀ i, i < K → Supabase.transiente (tentativa i) = true) →
      tentativa K = .resposta s → ¬ (500 ≤ s ∨ s = 429) →
      Supabase.fetchWithRetry tentativa 0 ⟨false, false⟩
        = ⟨.ok s, K + 1, ⟨false, false⟩⟩) ∧
    ((∀ i, i ≤ Supabase.MAX_RETRIES → tentativa i = .resposta s) → (500 ≤ s ∨ s = 429) →
      Supabase.fetchWithRetry tentativa 0 ⟨false, false⟩
        = ⟨.ok s, Supabase.MAX_RETRIES + 1, ⟨false, false⟩⟩) ∧
    ((∀ i, i ≤ Supabase.MAX_RETRIES → tentativa i = .timeoutAbort) →
      Supabase.fetchWithRetry tentativa 0 ⟨false, false⟩
        = ⟨.error .timeoutEsgotado, Supabase.MAX_RETRIES + 1, ⟨true, false⟩⟩) ∧
    ((∀ i, i ≤ Supabase.MAX_RETRIES → tentativa i = .erroRede) →
      Supabase.fetchWithRetry tentativa 0 ⟨false, false⟩
        = ⟨.error .falhaConexao, Supabase.MAX_RETRIES + 1, ⟨true, true⟩⟩) ∧
    (tentativa 0 = .resposta s → ¬ (500 ≤ s ∨ s = 429) →
      Supabase.fetchWithRetry tentativa 0 ⟨false, false⟩
        = ⟨.ok s, 1, ⟨false, false⟩⟩) := by
  refine ⟨?_, ?_, ?_, ?_, ?_⟩
  · intro hK htrans hsK hns
    have hns2 : ¬ ((500 ≤ s ∨ s = 429) ∧ K < Supabase.MAX_RETRIES) := fun hc => hns hc.1
    have hK3 : K < 3 := hK
    interval_cases K
    · rw [fetch_resposta_final tentativa 0 s hsK hns2]
    · have e0 : Supabase.fetchWithRetry tentativa 0 ⟨false, false⟩
          = { Supabase.fetchWithRetry tentativa 1 ⟨false, false⟩ with tentativas := (Supabase.fetchWithRetry tentativa 1 ⟨false, false⟩).tentativas + 1 } :=
        fetch_passo_transiente tentativa 0 (by decide) (htrans 0 (by omega))
      rw [e0, fetch_resposta_final tentativa 1 s hsK hns2]
    · have e0 : Supabase.fetchWithRetry tentativa 0 ⟨false, false⟩
          = { Supabase.fetchWithRetry tentativa 1 ⟨false, false⟩ with tentativas := (Supabase.fetchWithRetry tentativa 1 ⟨false, false⟩).tentativas + 1 } :=
        fetch_passo_transiente tentativa 0 (by decide) (htrans 0 (by omega))
      have e1 : Supabase.fetchWithRetry tentativa 1 ⟨false, false⟩
          = { Supabase.fetchWithRetry tentativa 2 ⟨false, false⟩ with tentativas := (Supabase.fetchWithRetry tentativa 2 ⟨false, false⟩).tentativas + 1 } :=
        fetch_passo_transiente tentativa 1 (by decide) (htrans 1 (by omega))
      rw [e0, e1, fetch_resposta_final tentativa 2 s hsK hns2]
  · intro hall htrans
    have hT : ∀ i, i ≤ 3 → Supabase.transiente (tentativa i) = true := fun i hi => by
      rw [hall i hi]
      simpa [Supabase.transiente] using htrans
    have e0 : Supabase.fetchWithRetry tentativa 0 ⟨false, false⟩
        = { Supabase.fetchWithRetry tentativa 1 ⟨false, false⟩ with tentativas := (Supabase.fetchWithRetry tentativa 1 ⟨false, false⟩).tentativas + 1 } :=
      fetch_passo_transiente tentativa 0 (by decide) (hT 0 (by omega))
    have e1 : Supabase.fetchWithRetry tentativa 1 ⟨false, false⟩
        = { Supabase.fetchWithRetry tentativa 2 ⟨false, false⟩ with tentativas := (Supabase.fetchWithRetry tentativa 2 ⟨false, false⟩).tentativas + 1 } :=
      fetch_passo_transiente tentativa 1 (by decide) (hT 1 (by omega))
    have e2 : Supabase.fetchWithRetry tentativa 2 ⟨false, false⟩
        = { Supabase.fetchWithRetry tentativa 3 ⟨false, false⟩ with tentativas := (Supabase.fetchWithRetry tentativa 3 ⟨false, false⟩).tentativas + 1 } :=
      fetch_passo_transiente tentativa 2 (by decide) (hT 2 (by omega))
    rw [e0, e1, e2,
      fetch_resposta_final tentativa 3 s (hall 3 (by decide)) (fun hc => absurd hc.2 (by decide))]
    rfl
  · intro hall
    have hT : ∀ i, i ≤ 3 → Supabase.transiente (tentativa i) = true := fun i hi => by
      rw [hall i hi]
      rfl
    have e0 : Supabase.fetchWithRetry tentativa 0 ⟨false, false⟩
        = { Supabase.fetchWithRetry tentativa 1 ⟨false, false⟩ with tentativas := (Supabase.fetchWithRetry tentativa 1 ⟨false, false⟩).tentativas + 1 } :=
      fetch_passo_transiente tentativa 0 (by decide) (hT 0 (by omega))
    have e1 : Supabase.fetchWithRetry tentativa 1 ⟨false, false⟩
        = { Supabase.fetchWithRetry tentativa 2 ⟨false, false⟩ with tentativas := (Supabase.fetchWithRetry tentativa 2 ⟨false, false⟩).tentativas + 1 } :=
      fetch_passo_transiente tentativa 1 (by decide) (hT 1 (by omega))
    have e2 : Supabase.fetchWithRetry tentativa 2 ⟨false, false⟩
        = { Supabase.fetchWithRetry tentativa 3 ⟨false, false⟩ with tentativas := (Supabase.fetchWithRetry tentativa 3 ⟨false, false⟩).tentativas + 1 } :=
      fetch_passo_transiente tentativa 2 (by decide) (hT 2 (by omega))
    rw [e0, e1, e2, fetch_timeout_final tentativa 3 (hall 3 (by decide)) (by decide)]
    rfl
  · intro hall
    have hT : ∀ i, i ≤ 3 → Supabase.transiente (tentativa i) = true := fun i hi => by
      rw [hall i hi]
      rfl
    have e0 : Supabase.fetchWithRetry tentativa 0 ⟨false, false⟩
        = { Supabase.fetchWithRetry tentativa 1 ⟨false, false⟩ with tentativas := (Supabase.fetchWithRetry tentativa 1 ⟨false, false⟩).tentativas + 1 } :=
      fetch_passo_transiente tentativa 0 (by decide) (hT 0 (by omega))
    have e1 : Supabase.fetchWithRetry tentativa 1 ⟨false, false⟩
        = { Supabase.fetchWithRetry tentativa 2 ⟨false, false⟩ with tentativas := (Supabase.fetchWithRetry tentativa 2 ⟨false, false⟩).tentativas + 1 } :=
      fetch_passo_transiente tentativa 1 (by decide) (hT 1 (by omega))
    have e2 : Supabase.fetchWithRetry tentativa 2 ⟨false, false⟩
        = { Supabase.fetchWithRetry tentativa 3 ⟨false, false⟩ with tentativas := (Supabase.fetchWithRetry tentativa 3 ⟨false, false⟩).tentativas + 1 } :=
      fetch_passo_transiente tentativa 2 (by decide) (hT 2 (by omega))
    rw [e0, e1, e2, fetch_rede_final tentativa 3 (hall 3 (by decide)) (by decide)]
    rfl
  · intro h0 hns
    rw [fetch_resposta_final tentativa 0 s h0 (fun hc => hns hc.1)]

/-- C3 counterexample: a remote answering 503 on every attempt exhausts
the retries (K = 4 ≥ MAX_RETRIES transient failures), yet the failing
response is simply returned and `isOfflineMode` stays false — the
Connectivity Monitor does not transition to Offline, contrary to the
claim; the offline transition happens only for timeout and network-error
exhaustion. -/
theorem fetchWithRetry_5xx_contraexemplo :
    Supabase.fetchWithRetry Supabase.cenario5xx 0 ⟨false, false⟩
      = ⟨.ok 503, 4, ⟨false, false⟩⟩ ∧
    (Supabase.fetchWithRetry Supabase.cenario5xx 0 ⟨false, false⟩).estado.isOfflineMode
      = false := by
  have e0 : Supabase.fetchWithRetry Supabase.cenario5xx 0 ⟨false, false⟩
      = { Supabase.fetchWithRetry Supabase.cenario5xx 1 ⟨false, false⟩ with tentativas := (Supabase.fetchWithRetry Supabase.cenario5xx 1 ⟨false, false⟩).tentativas + 1 } :=
    fetch_passo_transiente Supabase.cenario5xx 0 (by decide) rfl
  have e1 : Supabase.fetchWithRetry Supabase.cenario5xx 1 ⟨false, false⟩
      = { Supabase.fetchWithRetry Supabase.cenario5xx 2 ⟨false, false⟩ with tentativas := (Supabase.fetchWithRetry Supabase.cenario5xx 2 ⟨false, false⟩).tentativas + 1 } :=
    fetch_passo_transiente Supabase.cenario5xx 1 (by decide) rfl
  have e2 : Supabase.fetchWithRetry Supabase.cenario5xx 2 ⟨false, false⟩
      = { Supabase.fetchWithRetry Supabase.cenario5xx 3 ⟨false, false⟩ with tentativas := (Supabase.fetchWithRetry Supabase.cenario5xx 3 ⟨false, false⟩).tentativas + 1 } :=
    fetch_passo_transiente Supabase.cenario5xx 2 (by decide) rfl
  have h1 : Supabase.fetchWithRetry Supabase.cenario5xx 0 ⟨false, false⟩
      = ⟨.ok 503, 4, ⟨false, false⟩⟩ := by
    rw [e0, e1, e2, fetch_resposta_final Supabase.cenario5xx 3 503 rfl (by decide)]
  exact ⟨h1, by rw [h1]⟩

/-- Witness for C3 amended: two timeouts then a 200 succeed in three
attempts; persistent timeouts and network errors throw with offline mode
set after four attempts; a 404 is returned after one attempt; persistent
503s are returned after four attempts with the flags untouched. -/
theorem fetchWithRetry_politica_witness :
    Supabase.fetchWithRetry Supabase.cenarioDoisTimeouts 0 ⟨false, false⟩
      = ⟨.ok 200, 3, ⟨false, false⟩⟩ ∧
    Supabase.fetchWithRetry Supabase.cenarioTimeout 0 ⟨false, false⟩
      = ⟨.error .timeoutEsgotado, 4, ⟨true, false⟩⟩ ∧
    Supabase.fetchWithRetry Supabase.cenarioRede 0 ⟨false, false⟩
      = ⟨.error .falhaConexao, 4, ⟨true, true⟩⟩ ∧
    Supabase.fetchWithRetry Supabase.cenario404 0 ⟨false, false⟩
      = ⟨.ok 404, 1, ⟨false, false⟩⟩ ∧
    Supabase.fetchWithRetry Supabase.cenario5xx 0 ⟨false, false⟩
      = ⟨.ok 503, 4, ⟨false, false⟩⟩ := by
  refine ⟨?_, ?_, ?_, ?_, ?_⟩
  · exact (fetchWithRetry_politica Supabase.cenarioDoisTimeouts 2 200).1 (by decide)
      (fun i hi => by
        simp only [Supabase.cenarioDoisTimeouts]
        rw [if_pos hi]
        rfl)
      rfl (by decide)
  · exact (fetchWithRetry_politica Supabase.cenarioTimeout 0 0).2.2.1 (fun i hi => rfl)
  · exact (fetchWithRetry_politica Supabase.cenarioRede 0 0).2.2.2.1 (fun i hi => rfl)
  · exact (fetchWithRetry_politica Supabase.cenario404 0 404).2.2.2.2 rfl (by decide)
  · exact (fetchWithRetry_politica Supabase.cenario5xx 0 503).2.1 (fun i hi => rfl) (by decide)

end MFFinancas
